import Mathlib

/-!
# Session Lifecycle and Single-Active-Session Coordinator: a verification development

A shallow embedding of the session-lifecycle core of the PDFChat backend
(src/session_lifecycle.py, src/sessionManager.py, src/models.py, src/api.py),
with theorems settling the frozen claims about it.

Modelling conventions:
* The session store is a `DBState`: the list of user ids, the sessions table and
  the documents table.  SQLAlchemy row mutation followed by commit is modelled as
  a pure update of the matching list entry.
* UTC instants are integers (seconds since the Unix epoch); Python's
  `timedelta.days` is floor division by 86400, i.e. `Int.fdiv`.
* `models.py` declares `updated_at` with an `onupdate` hook that re-stamps the
  column with the current time whenever a changed row is flushed; the embedding
  applies that stamp wherever a commit writes a session row.
* The secondary resource handle (`vectordb_service`) is a function that may fail
  (`Except`); each transition result carries a log of the delete-by-session
  calls attempted, recording the id, owner and whether the call succeeded
  (mirroring what `logger.warning` would observe).
* Fallible Python code (raised `ValueError`s) is `Except String`.
-/

/-- `SessionState` from src/session_lifecycle.py: the three lifecycle states. -/
inductive SessionState where
  | ACTIVE
  | ARCHIVED
  | DELETED
deriving DecidableEq, Fintype

/-- A row of the `sessions` table (src/models.py, class `Session`). -/
structure Session where
  id : Nat
  user_id : Nat
  status : SessionState
  title : String
  created_at : Int
  updated_at : Int
  archived_at : Option Int
  metadata_ : List (String × String)
deriving DecidableEq

/-- A row of the `documents` table (src/models.py, class `Document`). -/
structure Document where
  id : Nat
  session_id : Nat
  file_name : String
  file_size : Nat
  file_type : String
  chunk_count : Nat
  storage_path : Option String
deriving DecidableEq

/-- The session store: user ids, sessions and documents. -/
structure DBState where
  users : List Nat
  sessions : List Session
  documents : List Document
deriving DecidableEq

/-- The secondary resource handle: `delete_session_collection(session_id, user_id)`,
which may raise. -/
def VecHandle : Type := Nat → Nat → Except String Unit

/-- Two-digit zero padding, as used by `strftime`. -/
def pad2 (n : Int) : String :=
  if n < 10 then "0" ++ toString n else toString n

/-- Proleptic Gregorian date from a count of days since 1970-01-01
(the standard civil-from-days algorithm; underlies `datetime.strftime`). -/
def civilFromDays (z0 : Int) : Int × Int × Int :=
  let z := z0 + 719468
  let era := Int.fdiv z 146097
  let doe := z - era * 146097
  let yoe := Int.fdiv (doe - Int.fdiv doe 1460 + Int.fdiv doe 36524 - Int.fdiv doe 146096) 365
  let y := yoe + era * 400
  let doy := doe - (365 * yoe + Int.fdiv yoe 4 - Int.fdiv yoe 100)
  let mp := Int.fdiv (5 * doy + 2) 153
  let d := doy - Int.fdiv (153 * mp + 2) 5 + 1
  let m := mp + (if mp < 10 then 3 else -9)
  (y + (if m ≤ 2 then 1 else 0), m, d)

/-- `datetime.strftime('%Y-%m-%d %H:%M')` on a UTC instant given in seconds. -/
def strftime_YmdHM (secs : Int) : String :=
  let days := Int.fdiv secs 86400
  let rem := secs - days * 86400
  let ymd := civilFromDays days
  toString ymd.1 ++ "-" ++ pad2 ymd.2.1 ++ "-" ++ pad2 ymd.2.2 ++ " " ++
    pad2 (Int.fdiv rem 3600) ++ ":" ++ pad2 (Int.emod (Int.fdiv rem 60) 60)

/-- The default title built by `SessionManager.create_session`
(src/sessionManager.py line 47): it interpolates the current UTC minute. -/
def defaultTitle (now : Int) : String :=
  "Session " ++ strftime_YmdHM now

/-- Printable state name, for the invalid-transition message. -/
def stateName : SessionState → String
  | .ACTIVE => "ACTIVE"
  | .ARCHIVED => "ARCHIVED"
  | .DELETED => "DELETED"

namespace SessionLifecycle

/-- `SessionLifecycle.VALID_TRANSITIONS` (src/session_lifecycle.py lines 24-28). -/
def VALID_TRANSITIONS : SessionState → List SessionState
  | .ACTIVE => [.ARCHIVED, .DELETED]
  | .ARCHIVED => [.ACTIVE, .DELETED]
  | .DELETED => []

/-- `SessionLifecycle.can_transition` (src/session_lifecycle.py lines 30-37). -/
def can_transition (current target : SessionState) : Bool :=
  (VALID_TRANSITIONS current).contains target

/-- The message of the `ValueError` raised on an invalid transition
(src/session_lifecycle.py lines 61-64). -/
def transitionErrorMsg (current target : SessionState) : String :=
  "Cannot transition from " ++ stateName current ++ " to " ++ stateName target

/-- Commit a mutation of the session row with the given id; no other row changes. -/
def updateSession (db : DBState) (sid : Nat) (f : Session → Session) : DBState :=
  { db with sessions := db.sessions.map (fun t => if t.id = sid then f t else t) }

/-- The field writes of `SessionLifecycle._archive` (src/session_lifecycle.py
lines 77-84) on the committed row: status, `archived_at`, and `updated_at`
re-stamped by the `onupdate` hook of src/models.py. -/
def archiveFields (now : Int) (t : Session) : Session :=
  { t with status := SessionState.ARCHIVED, archived_at := some now, updated_at := now }

/-- The field writes of `SessionLifecycle._reactivate` (src/session_lifecycle.py
lines 86-93): status, cleared `archived_at`, and the `onupdate` stamp. -/
def reactivateFields (now : Int) (t : Session) : Session :=
  { t with status := SessionState.ACTIVE, archived_at := none, updated_at := now }

/-- `SessionLifecycle._archive` at the store level. -/
def _archive (now : Int) (db : DBState) (s : Session) : DBState :=
  updateSession db s.id (archiveFields now)

/-- `SessionLifecycle._reactivate` at the store level. -/
def _reactivate (now : Int) (db : DBState) (s : Session) : DBState :=
  updateSession db s.id (reactivateFields now)

/-- `SessionLifecycle._hard_delete` (src/session_lifecycle.py lines 95-109),
record removal only: the session row is removed and its Document rows go with it
(the `cascade` declared in src/models.py). -/
def _hard_delete (db : DBState) (s : Session) : DBState :=
  { db with
    sessions := db.sessions.filter (fun t => t.id ≠ s.id),
    documents := db.documents.filter (fun d => d.session_id ≠ s.id) }

/-- `SessionLifecycle.transition` (src/session_lifecycle.py lines 39-75).
Returns the new store plus the log of delete-by-session calls attempted on the
secondary handle; in `_hard_delete` the call's outcome is caught and logged (the
`Bool` in the log), never propagated. -/
def transition (now : Int) (vec : VecHandle) (db : DBState) (s : Session)
    (target : SessionState) : Except String (DBState × List (Nat × Nat × Bool)) :=
  if can_transition s.status target then
    match target with
    | SessionState.ARCHIVED => Except.ok (_archive now db s, [])
    | SessionState.ACTIVE => Except.ok (_reactivate now db s, [])
    | SessionState.DELETED =>
        Except.ok (_hard_delete db s, [(s.id, s.user_id, (vec s.id s.user_id).toBool)])
  else
    Except.error (transitionErrorMsg s.status target)

end SessionLifecycle

namespace SessionManager

/-- `SessionManager.get_session` (src/sessionManager.py lines 59-77): first row
matching both the session id and the owner id, else `none`. -/
def get_session (sid uid : Nat) (db : DBState) : Option Session :=
  db.sessions.find? (fun s => s.id == sid && s.user_id == uid)

/-- `SessionManager.create_session` (src/sessionManager.py lines 21-57).
`newId` stands for the generated uuid; freshness is a hypothesis where needed.
Python's falsy test on the title argument sends both `None` and the empty
string to the default. -/
def create_session (now : Int) (newId : Nat) (user_id : Nat) (db : DBState)
    (title : Option String) (metadata : Option (List (String × String))) :
    Except String (DBState × Session) :=
  if db.users.contains user_id then
    let t := match title with
      | some s => if s = "" then defaultTitle now else s
      | none => defaultTitle now
    let s : Session :=
      { id := newId, user_id := user_id, status := SessionState.ACTIVE,
        title := t, created_at := now, updated_at := now,
        archived_at := none, metadata_ := metadata.getD [] }
    Except.ok ({ db with sessions := db.sessions ++ [s] }, s)
  else
    Except.error ("User " ++ toString user_id ++ " not found")

/-- The `None` passed as `vectordb_service` by `archive_session` and
`reactivate_session`: invoking it would raise. -/
def noneHandle : VecHandle :=
  fun _ _ => Except.error ("AttributeError: NoneType has no attribute delete_session_collection")

/-- `SessionManager.archive_session` (src/sessionManager.py lines 195-222):
resolve ownership, then delegate to the state machine with no handle. -/
def archive_session (now : Int) (sid uid : Nat) (db : DBState) :
    Except String (Option (DBState × List (Nat × Nat × Bool))) :=
  match get_session sid uid db with
  | none => Except.ok none
  | some s => (SessionLifecycle.transition now noneHandle db s SessionState.ARCHIVED).map some

/-- `SessionManager.reactivate_session` (src/sessionManager.py lines 224-251). -/
def reactivate_session (now : Int) (sid uid : Nat) (db : DBState) :
    Except String (Option (DBState × List (Nat × Nat × Bool))) :=
  match get_session sid uid db with
  | none => Except.ok none
  | some s => (SessionLifecycle.transition now noneHandle db s SessionState.ACTIVE).map some

/-- `SessionManager.delete_session` (src/sessionManager.py lines 253-286);
`none` plays the `False` returned when the session is not found. -/
def delete_session (now : Int) (vec : VecHandle) (sid uid : Nat) (db : DBState) :
    Except String (Option (DBState × List (Nat × Nat × Bool))) :=
  match get_session sid uid db with
  | none => Except.ok none
  | some s => (SessionLifecycle.transition now vec db s SessionState.DELETED).map some

/-- `SessionManager.update_session_timestamp` (src/sessionManager.py
lines 180-193): silent no-op when the session is not found. -/
def update_session_timestamp (now : Int) (sid uid : Nat) (db : DBState) : DBState :=
  match get_session sid uid db with
  | none => db
  | some s => SessionLifecycle.updateSession db s.id (fun t => { t with updated_at := now })

end SessionManager

namespace ArchivalPolicy

/-- `ArchivalPolicy.INACTIVITY_DAYS` default (src/session_lifecycle.py line 116). -/
def INACTIVITY_DAYS : Int := 30

/-- `ArchivalPolicy.RETENTION_DAYS` default (src/session_lifecycle.py line 117). -/
def RETENTION_DAYS : Int := 90

/-- `ArchivalPolicy.should_auto_archive` (src/session_lifecycle.py lines 119-133):
`timedelta.days` is floor division of the elapsed seconds by 86400. -/
def should_auto_archive (now : Int) (s : Session) : Bool :=
  if s.status ≠ SessionState.ACTIVE then false
  else decide (INACTIVITY_DAYS ≤ Int.fdiv (now - s.updated_at) 86400)

/-- `ArchivalPolicy.should_hard_delete` (src/session_lifecycle.py lines 135-149). -/
def should_hard_delete (now : Int) (s : Session) : Bool :=
  if s.status ≠ SessionState.ARCHIVED then false
  else match s.archived_at with
    | none => false
    | some a => decide (RETENTION_DAYS ≤ Int.fdiv (now - a) 86400)

/-- Phase one of `ArchivalPolicy.cleanup_job` (src/session_lifecycle.py lines
162-178): walk the queried snapshot of ACTIVE sessions; for each one due,
attempt the ARCHIVED transition inside try/except.  `fail` is the oracle for a
transient storage error raised during the attempt: caught and logged, the
session left untouched, the counter not incremented, and the walk continues. -/
def runArchivePhase (now : Int) (vec : VecHandle) (fail : Nat → Bool) :
    List Session → DBState → Nat → DBState × Nat
  | [], db, count => (db, count)
  | s :: rest, db, count =>
      if should_auto_archive now s then
        if fail s.id then
          runArchivePhase now vec fail rest db count
        else
          match SessionLifecycle.transition now vec db s SessionState.ARCHIVED with
          | Except.ok r => runArchivePhase now vec fail rest r.1 (count + 1)
          | Except.error _ => runArchivePhase now vec fail rest db count
      else runArchivePhase now vec fail rest db count

/-- Phase two of `ArchivalPolicy.cleanup_job` (src/session_lifecycle.py lines
180-196): same walk over the ARCHIVED snapshot, attempting DELETED. -/
def runDeletePhase (now : Int) (vec : VecHandle) (fail : Nat → Bool) :
    List Session → DBState → Nat → DBState × Nat
  | [], db, count => (db, count)
  | s :: rest, db, count =>
      if should_hard_delete now s then
        if fail s.id then
          runDeletePhase now vec fail rest db count
        else
          match SessionLifecycle.transition now vec db s SessionState.DELETED with
          | Except.ok r => runDeletePhase now vec fail rest r.1 (count + 1)
          | Except.error _ => runDeletePhase now vec fail rest db count
      else runDeletePhase now vec fail rest db count

/-- `ArchivalPolicy.cleanup_job` (src/session_lifecycle.py lines 151-200):
query the ACTIVE snapshot, run the archive phase, re-query the ARCHIVED
snapshot on the updated store, run the delete phase, and report both counts. -/
def cleanup_job (now : Int) (vec : VecHandle) (fail : Nat → Bool) (db : DBState) :
    DBState × Nat × Nat :=
  let actives := db.sessions.filter (fun s => s.status == SessionState.ACTIVE)
  let p1 := runArchivePhase now vec fail actives db 0
  let archiveds := p1.1.sessions.filter (fun s => s.status == SessionState.ARCHIVED)
  let p2 := runDeletePhase now vec fail archiveds p1.1 0
  (p2.1, p1.2, p2.2)

end ArchivalPolicy

namespace SessionManager

/-- Number of Document rows attached to a session (the `count_documents`
interface of the spec, served by the Documents table). -/
def docCount (db : DBState) (sid : Nat) : Nat :=
  (db.documents.filter (fun d => d.session_id == sid)).length

/-- The emptiness test of the reclamation policy: zero attached documents and
zero conversation messages (`msgCount` is the external `count_messages`). -/
def isEmptySession (db : DBState) (msgCount : Nat → Nat) (s : Session) : Bool :=
  docCount db s.id == 0 && msgCount s.id == 0

/-- The user's ACTIVE-session predicate used throughout the reclamation policy. -/
def isActiveOf (uid : Nat) (s : Session) : Bool :=
  s.user_id == uid && s.status == SessionState.ACTIVE

/-- Keep the session with the larger `updated_at` ("sort by `updated_at`
descending; keep the most recently updated one"). -/
def pickKeeper : Session → List Session → Session
  | best, [] => best
  | best, s :: rest => pickKeeper (if best.updated_at < s.updated_at then s else best) rest

/-- Redundant empty sessions marked for permanent deletion by the reclamation
policy: empty, ACTIVE, owned by the user, and not the keeper. -/
def reclaimDeleted (db : DBState) (msgCount : Nat → Nat) (uid keeperId : Nat)
    (s : Session) : Bool :=
  isActiveOf uid s && isEmptySession db msgCount s && s.id != keeperId

/-- The per-row rewrite applied by the reclamation policy to the surviving
sessions: archive every non-empty ACTIVE session of the user, touch the keeper. -/
def reclaimMap (now : Int) (db : DBState) (msgCount : Nat → Nat) (uid keeperId : Nat)
    (s : Session) : Session :=
  if isActiveOf uid s && !(isEmptySession db msgCount s) then
    SessionLifecycle.archiveFields now s
  else if s.id == keeperId then { s with updated_at := now }
  else s

/-- The fresh session inserted when the user has no empty ACTIVE session. -/
def freshSession (now : Int) (newId uid : Nat) : Session :=
  { id := newId, user_id := uid, status := SessionState.ACTIVE,
    title := defaultTitle now, created_at := now, updated_at := now,
    archived_at := none, metadata_ := [] }

/-- Steps 3-5 of the reclamation policy, once a keeper has been selected:
permanently delete every other empty ACTIVE session of the user together with
its Document rows, archive every non-empty ACTIVE session, touch the keeper,
and return it. -/
def reclaimResult (now : Int) (uid : Nat) (msgCount : Nat → Nat) (db : DBState)
    (keeper : Session) : DBState × Session :=
  ({ db with
     sessions :=
       (db.sessions.filter (fun s => !(reclaimDeleted db msgCount uid keeper.id s))).map
         (reclaimMap now db msgCount uid keeper.id),
     documents :=
       db.documents.filter (fun d =>
         !(db.sessions.any (fun s =>
           reclaimDeleted db msgCount uid keeper.id s && s.id == d.session_id))) },
   { keeper with updated_at := now })

/-- The user's currently ACTIVE sessions (step 1 of the reclamation policy). -/
def activesOf (uid : Nat) (db : DBState) : List Session :=
  db.sessions.filter (isActiveOf uid)

/-- The user's empty ACTIVE sessions, classified against the initial store. -/
def emptiesOf (uid : Nat) (msgCount : Nat → Nat) (db : DBState) : List Session :=
  (activesOf uid db).filter (isEmptySession db msgCount)

/-- Modelled from the spec: `SessionManager.get_or_create_empty_session` is
absent from src/ (src/api.py line 147 and the unit tests call it, but
src/sessionManager.py has no such method), so this follows the spec's
Empty-Session Reclamation Policy (section 4.3) word for word: classify the
user's ACTIVE sessions as empty or non-empty; if none is empty, create a new
session (which per section 4.2 archives every other ACTIVE session of the
user); otherwise keep the most recently updated empty session, permanently
delete every other empty session (cascading its documents), archive every
non-empty ACTIVE session, touch the keeper and return it. -/
def get_or_create_empty_session (now : Int) (newId uid : Nat)
    (msgCount : Nat → Nat) (db : DBState) : DBState × Session :=
  match emptiesOf uid msgCount db with
  | [] =>
      ({ db with sessions :=
            (db.sessions.map (fun s =>
              if isActiveOf uid s then SessionLifecycle.archiveFields now s else s))
            ++ [freshSession now newId uid] },
       freshSession now newId uid)
  | k :: rest => reclaimResult now uid msgCount db (pickKeeper k rest)

end SessionManager

/-- The valid edges of the transition table actually implemented by
`SessionLifecycle.VALID_TRANSITIONS`, spelled out extensionally. -/
def validEdges : List (SessionState × SessionState) :=
  [(SessionState.ACTIVE, SessionState.ARCHIVED), (SessionState.ACTIVE, SessionState.DELETED),
   (SessionState.ARCHIVED, SessionState.ACTIVE), (SessionState.ARCHIVED, SessionState.DELETED)]

/-- C3, counterexample: the claim says the table has 6 valid edges, but no
6-element set of ordered state pairs can coincide with the pairs on which
`SessionLifecycle.can_transition` succeeds — that set has exactly 4 elements
(src/session_lifecycle.py lines 24-28 list two targets from ACTIVE, two from
ARCHIVED and none from DELETED). -/
theorem can_transition_has_no_six_edge_table :
    ¬ ∃ E : Finset (SessionState × SessionState), E.card = 6 ∧
      ∀ s t : SessionState, (SessionLifecycle.can_transition s t = true ↔ (s, t) ∈ E) := by
  rintro ⟨E, hcard, hiff⟩
  have hE : E = Finset.univ.filter
      (fun p : SessionState × SessionState => SessionLifecycle.can_transition p.1 p.2 = true) := by
    ext p
    rcases p with ⟨s, t⟩
    simp only [Finset.mem_filter, Finset.mem_univ, true_and]
    exact (hiff s t).symm
  rw [hE] at hcard
  exact absurd hcard (by decide)

/-- C3, amended: `SessionLifecycle.transition` succeeds exactly on the 4 valid
edges ACTIVE→ARCHIVED, ACTIVE→DELETED, ARCHIVED→ACTIVE, ARCHIVED→DELETED, and
fails with the invalid-transition error on every other ordered pair, including
every same-state pair and every pair starting from DELETED. -/
theorem transition_table_exact :
    ∀ (now : Int) (vec : VecHandle) (db : DBState) (s : Session) (t : SessionState),
      ((SessionLifecycle.transition now vec db s t).isOk = true ↔ (s.status, t) ∈ validEdges)
      ∧ ((s.status, t) ∉ validEdges →
          SessionLifecycle.transition now vec db s t
            = Except.error (SessionLifecycle.transitionErrorMsg s.status t)) := by
  intro now vec db s t
  cases hst : s.status <;> cases t <;>
    simp [SessionLifecycle.transition, SessionLifecycle.can_transition,
      SessionLifecycle.VALID_TRANSITIONS, validEdges, hst, Except.isOk, Except.toBool]

/-- Session constants used by concrete witnesses and counterexamples. -/
def wDeleted : Session :=
  { id := 7, user_id := 1, status := SessionState.DELETED, title := "w",
    created_at := 0, updated_at := 0, archived_at := none, metadata_ := [] }

/-- Store constant used by concrete witnesses. -/
def wDb : DBState := { users := [1], sessions := [wDeleted], documents := [] }

/-- Witness for C3's amended theorem at the concrete pair DELETED→ACTIVE. -/
theorem transition_table_exact_witness :
    ((SessionLifecycle.transition 0 SessionManager.noneHandle wDb wDeleted
        SessionState.ACTIVE).isOk = true
      ↔ (wDeleted.status, SessionState.ACTIVE) ∈ validEdges)
    ∧ SessionLifecycle.transition 0 SessionManager.noneHandle wDb wDeleted SessionState.ACTIVE
        = Except.error (SessionLifecycle.transitionErrorMsg wDeleted.status SessionState.ACTIVE) :=
  ⟨(transition_table_exact 0 SessionManager.noneHandle wDb wDeleted SessionState.ACTIVE).1,
   (transition_table_exact 0 SessionManager.noneHandle wDb wDeleted SessionState.ACTIVE).2
     (by decide)⟩

/-- C5: `SessionManager.get_session` returns a session exactly when one exists
with the requested id owned by the requesting user; both nonexistence and
ownership mismatch produce the very same `none`, indistinguishable to the
caller (src/sessionManager.py lines 59-77 filter on both columns at once). -/
theorem get_session_ownership_spec :
    ∀ (db : DBState) (sid uid : Nat),
      ((∃ s ∈ db.sessions, s.id = sid ∧ s.user_id = uid) →
         ∃ s, SessionManager.get_session sid uid db = some s
           ∧ s ∈ db.sessions ∧ s.id = sid ∧ s.user_id = uid)
      ∧ (∀ s, SessionManager.get_session sid uid db = some s →
           s ∈ db.sessions ∧ s.id = sid ∧ s.user_id = uid)
      ∧ ((∀ s ∈ db.sessions, s.id ≠ sid) → SessionManager.get_session sid uid db = none)
      ∧ ((∀ s ∈ db.sessions, s.id = sid → s.user_id ≠ uid) →
           SessionManager.get_session sid uid db = none) := by
  intro db sid uid
  refine ⟨?_, ?_, ?_, ?_⟩
  · rintro ⟨s, hs, hid, huid⟩
    have hsome : (db.sessions.find? (fun s => s.id == sid && s.user_id == uid)).isSome := by
      rw [List.find?_isSome]
      exact ⟨s, hs, by simp [hid, huid]⟩
    obtain ⟨r, hr⟩ := Option.isSome_iff_exists.mp hsome
    have hmem := List.mem_of_find?_eq_some hr
    have hp := List.find?_some hr
    simp only [Bool.and_eq_true, beq_iff_eq] at hp
    exact ⟨r, hr, hmem, hp.1, hp.2⟩
  · intro s hfind
    have hmem := List.mem_of_find?_eq_some hfind
    have hp := List.find?_some hfind
    simp only [Bool.and_eq_true, beq_iff_eq] at hp
    exact ⟨hmem, hp.1, hp.2⟩
  · intro hnone
    apply List.find?_eq_none.mpr
    intro s hs
    simp only [Bool.and_eq_true, beq_iff_eq, not_and]
    intro hid
    exact absurd hid (hnone s hs)
  · intro hmismatch
    apply List.find?_eq_none.mpr
    intro s hs
    simp only [Bool.and_eq_true, beq_iff_eq, not_and]
    intro hid
    exact hmismatch s hs hid

/-- A session owned by user 1, used in witnesses. -/
def wActive : Session :=
  { id := 3, user_id := 1, status := SessionState.ACTIVE, title := "w3",
    created_at := 0, updated_at := 0, archived_at := none, metadata_ := [] }

/-- Store holding exactly `wActive`, for the C5 witness. -/
def wDb5 : DBState := { users := [1, 2], sessions := [wActive], documents := [] }

/-- Session stores reachable through the manager-level operations of the core:
creation, archive, reactivate, delete and activity touch, each taken only when
the operation returns successfully. -/
inductive Reachable : DBState → Prop where
  | init : ∀ users : List Nat,
      Reachable { users := users, sessions := [], documents := [] }
  | create : ∀ (db db' : DBState) (s : Session) (now : Int) (newId uid : Nat)
      (title : Option String) (md : Option (List (String × String))),
      Reachable db →
      SessionManager.create_session now newId uid db title md = Except.ok (db', s) →
      Reachable db'
  | archive : ∀ (db db' : DBState) (calls : List (Nat × Nat × Bool)) (now : Int) (sid uid : Nat),
      Reachable db →
      SessionManager.archive_session now sid uid db = Except.ok (some (db', calls)) →
      Reachable db'
  | reactivate : ∀ (db db' : DBState) (calls : List (Nat × Nat × Bool)) (now : Int) (sid uid : Nat),
      Reachable db →
      SessionManager.reactivate_session now sid uid db = Except.ok (some (db', calls)) →
      Reachable db'
  | delete : ∀ (db db' : DBState) (calls : List (Nat × Nat × Bool)) (now : Int)
      (vec : VecHandle) (sid uid : Nat),
      Reachable db →
      SessionManager.delete_session now vec sid uid db = Except.ok (some (db', calls)) →
      Reachable db'
  | touch : ∀ (db : DBState) (now : Int) (sid uid : Nat),
      Reachable db →
      Reachable (SessionManager.update_session_timestamp now sid uid db)

/-- C8: in every reachable store, a session's `archived_at` is non-null exactly
when its status is ARCHIVED — creation starts ACTIVE with null `archived_at`
(src/sessionManager.py lines 45-50), the ARCHIVED transition stamps it and the
ACTIVE transition clears it (src/session_lifecycle.py lines 77-93). -/
theorem archived_at_iff_archived (db : DBState) (h : Reachable db) :
    ∀ s ∈ db.sessions, (s.archived_at ≠ none ↔ s.status = SessionState.ARCHIVED) := by
  induction h with
  | init users =>
      intro s hs
      simp at hs
  | create db db' snew now newId uid title md hdb hop ih =>
      rw [SessionManager.create_session.eq_def] at hop
      split at hop
      · simp only [Except.ok.injEq, Prod.mk.injEq] at hop
        obtain ⟨hdb', -⟩ := hop
        subst hdb'
        intro t ht
        simp only [List.mem_append, List.mem_singleton] at ht
        rcases ht with hin | hnew
        · exact ih t hin
        · subst hnew
          simp
      · simp at hop
  | archive db db' calls now sid uid hdb hop ih =>
      rw [SessionManager.archive_session] at hop
      cases hget : SessionManager.get_session sid uid db with
      | none => rw [hget] at hop; simp at hop
      | some s0 =>
          rw [hget] at hop
          simp only [SessionLifecycle.transition] at hop
          split at hop
          · simp only [Except.map, Except.ok.injEq, Option.some.injEq,
              Prod.mk.injEq] at hop
            obtain ⟨hdb', -⟩ := hop
            subst hdb'
            intro t ht
            simp only [SessionLifecycle._archive, SessionLifecycle.updateSession,
              List.mem_map] at ht
            obtain ⟨u, hu, hut⟩ := ht
            by_cases hid : u.id = s0.id
            · rw [if_pos hid] at hut
              rw [← hut]
              simp [SessionLifecycle.archiveFields]
            · rw [if_neg hid] at hut
              rw [← hut]
              exact ih u hu
          · simp [Except.map] at hop
  | reactivate db db' calls now sid uid hdb hop ih =>
      rw [SessionManager.reactivate_session] at hop
      cases hget : SessionManager.get_session sid uid db with
      | none => rw [hget] at hop; simp at hop
      | some s0 =>
          rw [hget] at hop
          simp only [SessionLifecycle.transition] at hop
          split at hop
          · simp only [Except.map, Except.ok.injEq, Option.some.injEq,
              Prod.mk.injEq] at hop
            obtain ⟨hdb', -⟩ := hop
            subst hdb'
            intro t ht
            simp only [SessionLifecycle._reactivate, SessionLifecycle.updateSession,
              List.mem_map] at ht
            obtain ⟨u, hu, hut⟩ := ht
            by_cases hid : u.id = s0.id
            · rw [if_pos hid] at hut
              rw [← hut]
              simp [SessionLifecycle.reactivateFields]
            · rw [if_neg hid] at hut
              rw [← hut]
              exact ih u hu
          · simp [Except.map] at hop
  | delete db db' calls now vec sid uid hdb hop ih =>
      rw [SessionManager.delete_session] at hop
      cases hget : SessionManager.get_session sid uid db with
      | none => rw [hget] at hop; simp at hop
      | some s0 =>
          rw [hget] at hop
          simp only [SessionLifecycle.transition] at hop
          split at hop
          · simp only [Except.map, Except.ok.injEq, Option.some.injEq,
              Prod.mk.injEq] at hop
            obtain ⟨hdb', -⟩ := hop
            subst hdb'
            intro t ht
            simp only [SessionLifecycle._hard_delete, List.mem_filter] at ht
            exact ih t ht.1
          · simp [Except.map] at hop
  | touch db now sid uid hdb ih =>
      intro t ht
      rw [SessionManager.update_session_timestamp] at ht
      cases hget : SessionManager.get_session sid uid db with
      | none => rw [hget] at ht; exact ih t ht
      | some s0 =>
          rw [hget] at ht
          simp only [SessionLifecycle.updateSession, List.mem_map] at ht
          obtain ⟨u, hu, hut⟩ := ht
          by_cases hid : u.id = s0.id
          · rw [if_pos hid] at hut
            rw [← hut]
            exact ih u hu
          · rw [if_neg hid] at hut
            rw [← hut]
            exact ih u hu

/-- Session 9 as created for user 1 at time 0 (C8 witness). -/
def wS8 : Session :=
  { id := 9, user_id := 1, status := SessionState.ACTIVE, title := defaultTitle 0,
    created_at := 0, updated_at := 0, archived_at := none, metadata_ := [] }

/-- The store reached in the C8 witness: user 1 creates session 9 at time 0. -/
def wDb8 : DBState := { users := [1], sessions := [wS8], documents := [] }

/-- Session 9 after the archive at time 5 (C8 witness). -/
def wS8A : Session :=
  { wS8 with status := SessionState.ARCHIVED, archived_at := some 5, updated_at := 5 }

/-- The store reached in the C8 witness after archiving session 9 at time 5. -/
def wDb8A : DBState := { users := [1], sessions := [wS8A], documents := [] }

/-- Witness for C8: the invariant instantiated on the concrete session 9 of a
store reached by one `create_session` call followed by one `archive_session`
call. -/
theorem archived_at_iff_archived_witness :
    wS8A.archived_at ≠ none ↔ wS8A.status = SessionState.ARCHIVED :=
  archived_at_iff_archived wDb8A
    (Reachable.archive wDb8 wDb8A [] 5 9 1
      (Reachable.create { users := [1], sessions := [], documents := [] } wDb8 wS8
        0 9 1 none none (Reachable.init [1]) rfl)
      rfl)
    wS8A (by decide)

/-- A secondary resource handle that always raises, for C4. -/
def failingVec : VecHandle := fun _ _ => Except.error ("vector store unavailable")

/-- C4: from ACTIVE or ARCHIVED, the DELETED transition always returns
successfully with the session row and its Document rows removed, whatever the
secondary handle does — the delete-by-session call is attempted and its
outcome merely logged (src/session_lifecycle.py lines 96-109 wrap it in
try/except). -/
theorem hard_delete_survives_vec_failure :
    ∀ (now : Int) (vec : VecHandle) (db : DBState) (s : Session),
      (s.status = SessionState.ACTIVE ∨ s.status = SessionState.ARCHIVED) →
      SessionLifecycle.transition now vec db s SessionState.DELETED
        = Except.ok (SessionLifecycle._hard_delete db s,
            [(s.id, s.user_id, (vec s.id s.user_id).toBool)])
      ∧ (∀ t ∈ (SessionLifecycle._hard_delete db s).sessions, t.id ≠ s.id)
      ∧ (∀ d ∈ (SessionLifecycle._hard_delete db s).documents, d.session_id ≠ s.id) := by
  intro now vec db s hs
  refine ⟨?_, ?_, ?_⟩
  · rcases hs with h | h <;>
      simp [SessionLifecycle.transition, SessionLifecycle.can_transition,
        SessionLifecycle.VALID_TRANSITIONS, h]
  · intro t ht
    simp only [SessionLifecycle._hard_delete, List.mem_filter, decide_eq_true_eq] at ht
    exact ht.2
  · intro d hd
    simp only [SessionLifecycle._hard_delete, List.mem_filter, decide_eq_true_eq] at hd
    exact hd.2

/-- The archived session deleted in the C4 witness. -/
def wC4Session : Session :=
  { id := 4, user_id := 1, status := SessionState.ARCHIVED, title := "c4",
    created_at := 0, updated_at := 0, archived_at := some 1, metadata_ := [] }

/-- The store of the C4 witness: the session plus one of its documents. -/
def wC4Db : DBState :=
  { users := [1], sessions := [wC4Session],
    documents := [{ id := 10, session_id := 4, file_name := "f.pdf", file_size := 5,
                    file_type := "pdf", chunk_count := 1, storage_path := none }] }

/-- Witness for C4 with a handle that raises: the transition still succeeds and
removes the row and its documents. -/
theorem hard_delete_survives_vec_failure_witness :
    SessionLifecycle.transition 2 failingVec wC4Db wC4Session SessionState.DELETED
      = Except.ok (SessionLifecycle._hard_delete wC4Db wC4Session,
          [(wC4Session.id, wC4Session.user_id, (failingVec wC4Session.id wC4Session.user_id).toBool)])
    ∧ (∀ t ∈ (SessionLifecycle._hard_delete wC4Db wC4Session).sessions, t.id ≠ wC4Session.id)
    ∧ (∀ d ∈ (SessionLifecycle._hard_delete wC4Db wC4Session).documents,
        d.session_id ≠ wC4Session.id) :=
  hard_delete_survives_vec_failure 2 failingVec wC4Db wC4Session (Or.inr rfl)

/-- C6: boundary behaviour of the retention thresholds
(src/session_lifecycle.py lines 119-149, `timedelta.days` being floor division
by 86400 seconds): an ACTIVE session strictly older than the 30-day inactivity
threshold is due for archival, exactly one day short of the boundary it is not,
one day past it is; and the same pattern for hard-deleting ARCHIVED sessions
against the 90-day retention threshold on `archived_at`. -/
theorem retention_boundaries :
    (∀ (now : Int) (s : Session), s.status = SessionState.ACTIVE →
      ArchivalPolicy.INACTIVITY_DAYS * 86400 < now - s.updated_at →
      ArchivalPolicy.should_auto_archive now s = true)
    ∧ (∀ (now : Int) (s : Session), s.status = SessionState.ACTIVE →
        now - s.updated_at = (ArchivalPolicy.INACTIVITY_DAYS - 1) * 86400 →
        ArchivalPolicy.should_auto_archive now s = false)
    ∧ (∀ (now : Int) (s : Session), s.status = SessionState.ACTIVE →
        now - s.updated_at = (ArchivalPolicy.INACTIVITY_DAYS + 1) * 86400 →
        ArchivalPolicy.should_auto_archive now s = true)
    ∧ (∀ (now a : Int) (s : Session), s.status = SessionState.ARCHIVED →
        s.archived_at = some a →
        ArchivalPolicy.RETENTION_DAYS * 86400 < now - a →
        ArchivalPolicy.should_hard_delete now s = true)
    ∧ (∀ (now a : Int) (s : Session), s.status = SessionState.ARCHIVED →
        s.archived_at = some a →
        now - a = (ArchivalPolicy.RETENTION_DAYS - 1) * 86400 →
        ArchivalPolicy.should_hard_delete now s = false)
    ∧ (∀ (now a : Int) (s : Session), s.status = SessionState.ARCHIVED →
        s.archived_at = some a →
        now - a = (ArchivalPolicy.RETENTION_DAYS + 1) * 86400 →
        ArchivalPolicy.should_hard_delete now s = true) := by
  have hdiv : ∀ (c x : Int), c * 86400 < x → c ≤ Int.fdiv x 86400 := by
    intro c x hlt
    rw [Int.fdiv_eq_ediv _ (by norm_num)]
    rw [Int.le_ediv_iff_mul_le (by norm_num)]
    exact le_of_lt hlt
  have hexact : ∀ c : Int, Int.fdiv (c * 86400) 86400 = c := by
    intro c
    rw [Int.fdiv_eq_ediv _ (by norm_num)]
    exact Int.mul_ediv_cancel c (by norm_num)
  refine ⟨?_, ?_, ?_, ?_, ?_, ?_⟩
  · intro now s hst hlt
    simp only [ArchivalPolicy.should_auto_archive, hst]
    simp only [ne_eq, not_true_eq_false, if_false, decide_eq_true_eq]
    exact hdiv _ _ hlt
  · intro now s hst heq
    simp only [ArchivalPolicy.should_auto_archive, hst]
    simp only [ne_eq, not_true_eq_false, if_false, heq, hexact, decide_eq_false_iff_not]
    simp [ArchivalPolicy.INACTIVITY_DAYS]
  · intro now s hst heq
    simp only [ArchivalPolicy.should_auto_archive, hst]
    simp only [ne_eq, not_true_eq_false, if_false, heq, hexact, decide_eq_true_eq]
    simp [ArchivalPolicy.INACTIVITY_DAYS]
  · intro now a s hst harch hlt
    simp only [ArchivalPolicy.should_hard_delete, hst]
    simp only [ne_eq, not_true_eq_false, if_false, harch, decide_eq_true_eq]
    exact hdiv _ _ hlt
  · intro now a s hst harch heq
    simp only [ArchivalPolicy.should_hard_delete, hst]
    simp only [ne_eq, not_true_eq_false, if_false, harch, heq, hexact,
      decide_eq_false_iff_not]
    simp [ArchivalPolicy.RETENTION_DAYS]
  · intro now a s hst harch heq
    simp only [ArchivalPolicy.should_hard_delete, hst]
    simp only [ne_eq, not_true_eq_false, if_false, harch, heq, hexact, decide_eq_true_eq]
    simp [ArchivalPolicy.RETENTION_DAYS]

/-- ACTIVE session last updated at time 0, for the C6 witness. -/
def wC6Active : Session :=
  { id := 6, user_id := 1, status := SessionState.ACTIVE, title := "c6",
    created_at := 0, updated_at := 0, archived_at := none, metadata_ := [] }

/-- ARCHIVED session archived at time 0, for the C6 witness. -/
def wC6Archived : Session :=
  { id := 7, user_id := 1, status := SessionState.ARCHIVED, title := "c6a",
    created_at := 0, updated_at := 0, archived_at := some 0, metadata_ := [] }

/-- Witness for C6 at the concrete boundaries: 29 days → keep, 31 days →
archive, 89 days → keep, 91 days → delete. -/
theorem retention_boundaries_witness :
    ArchivalPolicy.should_auto_archive (29 * 86400) wC6Active = false
    ∧ ArchivalPolicy.should_auto_archive (31 * 86400) wC6Active = true
    ∧ ArchivalPolicy.should_hard_delete (89 * 86400) wC6Archived = false
    ∧ ArchivalPolicy.should_hard_delete (91 * 86400) wC6Archived = true :=
  ⟨retention_boundaries.2.1 (29 * 86400) wC6Active rfl (by decide),
   retention_boundaries.2.2.1 (31 * 86400) wC6Active rfl (by decide),
   retention_boundaries.2.2.2.2.1 (89 * 86400) 0 wC6Archived rfl rfl (by decide),
   retention_boundaries.2.2.2.2.2 (91 * 86400) 0 wC6Archived rfl rfl (by decide)⟩

/-- ACTIVE sessions a user holds in a store. -/
def activeCount (db : DBState) (uid : Nat) : Nat :=
  (db.sessions.filter (fun t => t.user_id == uid && t.status == SessionState.ACTIVE)).length

/-- Existing ACTIVE session of user 1 for the C1 run. -/
def c1Active : Session :=
  { id := 1, user_id := 1, status := SessionState.ACTIVE, title := "first",
    created_at := 0, updated_at := 0, archived_at := none, metadata_ := [] }

/-- ARCHIVED session of user 1 for the C1 reactivation run. -/
def c1Archived : Session :=
  { id := 2, user_id := 1, status := SessionState.ARCHIVED, title := "second",
    created_at := 0, updated_at := 0, archived_at := some 0, metadata_ := [] }

/-- Store before the C1 `create_session` call: user 1 has one ACTIVE session. -/
def c1Db : DBState := { users := [1], sessions := [c1Active], documents := [] }

/-- Store before the C1 `reactivate_session` call: one ACTIVE, one ARCHIVED. -/
def c1Db2 : DBState := { users := [1], sessions := [c1Active, c1Archived], documents := [] }

/-- C1, evaluation at the failing input: `SessionManager.create_session`
(src/sessionManager.py lines 21-57) inserts the new ACTIVE session without
archiving the user's existing ACTIVE one, and `reactivate_session` (lines
224-251) activates its target without archiving the other ACTIVE session —
both calls return with the user holding TWO ACTIVE sessions, violating the
single-active-session post-condition that the spec states and that the
repository's own test
`test_session_manager_active_policy.py::test_create_session_archives_others`
asserts. -/
theorem create_and_reactivate_leave_two_active :
    (SessionManager.create_session 0 2 1 c1Db none none).map (fun r => activeCount r.1 1)
      = Except.ok 2
    ∧ (SessionManager.reactivate_session 5 2 1 c1Db2).map
        (fun r => match r with | some p => activeCount p.1 1 | none => 0)
      = Except.ok 2 :=
  ⟨rfl, rfl⟩

/-- Empty store of user 1 for the C9 runs. -/
def c9Db : DBState := { users := [1], sessions := [], documents := [] }

/-- C9, evaluation at the failing input: the default title interpolates the
current UTC minute (src/sessionManager.py line 47), so two calls one minute
apart produce different titles, and no call ever produces the constant
"New Conversation" that src/api.py line 581 compares against to detect a
not-yet-renamed session — the detection can never fire. -/
theorem default_title_is_time_dependent :
    (SessionManager.create_session 0 1 1 c9Db none none).map (fun r => r.2.title)
      = Except.ok ("Session 1970-01-01 00:00")
    ∧ (SessionManager.create_session 60 2 1 c9Db none none).map (fun r => r.2.title)
      = Except.ok ("Session 1970-01-01 00:01")
    ∧ ("Session 1970-01-01 00:00" : String) ≠ "Session 1970-01-01 00:01"
    ∧ ("Session 1970-01-01 00:00" : String) ≠ "New Conversation" :=
  ⟨rfl, rfl, by decide, by decide⟩

/-- A session judged due for auto-archival is ACTIVE (the guard on
src/session_lifecycle.py line 122). -/
theorem should_auto_archive_status (now : Int) (s : Session) :
    ArchivalPolicy.should_auto_archive now s = true → s.status = SessionState.ACTIVE := by
  intro h
  by_contra hne
  simp [ArchivalPolicy.should_auto_archive, hne] at h

/-- A session judged due for hard deletion is ARCHIVED (the guard on
src/session_lifecycle.py line 138). -/
theorem should_hard_delete_status (now : Int) (s : Session) :
    ArchivalPolicy.should_hard_delete now s = true → s.status = SessionState.ARCHIVED := by
  intro h
  by_contra hne
  simp [ArchivalPolicy.should_hard_delete, hne] at h

/-- The archive phase of the sweep counts exactly the due sessions whose
transition attempt did not raise, walking the whole snapshot regardless of
where failures occur. -/
theorem runArchivePhase_count (now : Int) (vec : VecHandle) (fail : Nat → Bool) :
    ∀ (l : List Session) (db : DBState) (c : Nat),
      (ArchivalPolicy.runArchivePhase now vec fail l db c).2
        = c + (l.filter
            (fun s => ArchivalPolicy.should_auto_archive now s && !(fail s.id))).length := by
  intro l
  induction l with
  | nil => intro db c; simp [ArchivalPolicy.runArchivePhase]
  | cons s rest ih =>
      intro db c
      simp only [ArchivalPolicy.runArchivePhase]
      by_cases hs : ArchivalPolicy.should_auto_archive now s = true
      · rw [if_pos hs]
        by_cases hf : fail s.id = true
        · rw [if_pos hf, ih]
          simp [List.filter_cons, hs, hf]
        · rw [if_neg hf]
          have hstatus := should_auto_archive_status now s hs
          rw [show SessionLifecycle.transition now vec db s SessionState.ARCHIVED
              = Except.ok (SessionLifecycle._archive now db s, []) from by
            simp [SessionLifecycle.transition, SessionLifecycle.can_transition,
              SessionLifecycle.VALID_TRANSITIONS, hstatus]]
          rw [ih]
          simp only [List.filter_cons, hs, hf, Bool.not_false, Bool.and_true,
            Bool.true_and, if_true, List.length_cons]
          omega
      · rw [if_neg hs, ih]
        simp [List.filter_cons, hs]

/-- The delete phase of the sweep counts exactly the due sessions whose
transition attempt did not raise. -/
theorem runDeletePhase_count (now : Int) (vec : VecHandle) (fail : Nat → Bool) :
    ∀ (l : List Session) (db : DBState) (c : Nat),
      (ArchivalPolicy.runDeletePhase now vec fail l db c).2
        = c + (l.filter
            (fun s => ArchivalPolicy.should_hard_delete now s && !(fail s.id))).length := by
  intro l
  induction l with
  | nil => intro db c; simp [ArchivalPolicy.runDeletePhase]
  | cons s rest ih =>
      intro db c
      simp only [ArchivalPolicy.runDeletePhase]
      by_cases hs : ArchivalPolicy.should_hard_delete now s = true
      · rw [if_pos hs]
        by_cases hf : fail s.id = true
        · rw [if_pos hf, ih]
          simp [List.filter_cons, hs, hf]
        · rw [if_neg hf]
          have hstatus := should_hard_delete_status now s hs
          rw [show SessionLifecycle.transition now vec db s SessionState.DELETED
              = Except.ok (SessionLifecycle._hard_delete db s,
                  [(s.id, s.user_id, (vec s.id s.user_id).toBool)]) from by
            simp [SessionLifecycle.transition, SessionLifecycle.can_transition,
              SessionLifecycle.VALID_TRANSITIONS, hstatus]]
          rw [ih]
          simp only [List.filter_cons, hs, hf, Bool.not_false, Bool.and_true,
            Bool.true_and, if_true, List.length_cons]
          omega
      · rw [if_neg hs, ih]
        simp [List.filter_cons, hs]

/-- C7: the retention sweep evaluates every session of each snapshot
independently — a raised error on one session (the `fail` oracle standing for
the exception caught on src/session_lifecycle.py lines 177 and 195) skips
only that session — and the reported counts are exactly the due sessions
whose transition went through: due-but-failing sessions are not counted, and
sessions after a failure still are. -/
theorem cleanup_job_counts :
    ∀ (now : Int) (vec : VecHandle) (fail : Nat → Bool) (db : DBState),
      (ArchivalPolicy.cleanup_job now vec fail db).2.1
        = ((db.sessions.filter (fun s => s.status == SessionState.ACTIVE)).filter
            (fun s => ArchivalPolicy.should_auto_archive now s && !(fail s.id))).length
      ∧ (ArchivalPolicy.cleanup_job now vec fail db).2.2
        = (((ArchivalPolicy.runArchivePhase now vec fail
              (db.sessions.filter (fun s => s.status == SessionState.ACTIVE)) db
              0).1.sessions.filter
              (fun s => s.status == SessionState.ARCHIVED)).filter
            (fun s => ArchivalPolicy.should_hard_delete now s && !(fail s.id))).length := by
  intro now vec fail db
  constructor
  · simp only [ArchivalPolicy.cleanup_job]
    rw [runArchivePhase_count]
    exact Nat.zero_add _
  · simp only [ArchivalPolicy.cleanup_job]
    rw [runDeletePhase_count]
    exact Nat.zero_add _

/-- ACTIVE session of user 1 last touched at time 0, for the C10 runs. -/
def w10Before : Session :=
  { id := 1, user_id := 1, status := SessionState.ACTIVE, title := "t",
    created_at := 0, updated_at := 0, archived_at := none, metadata_ := [] }

/-- Store before the C10 archive call. -/
def w10Db : DBState := { users := [1], sessions := [w10Before], documents := [] }

/-- The row after archiving at time 5: besides status and `archived_at`, the
`onupdate` hook of src/models.py has re-stamped `updated_at`. -/
def w10After : Session :=
  { w10Before with status := SessionState.ARCHIVED, archived_at := some 5, updated_at := 5 }

/-- Store after the C10 archive call. -/
def w10DbA : DBState := { users := [1], sessions := [w10After], documents := [] }

/-- C10, counterexample: archiving at time 5 a session last updated at time 0
also rewrites `updated_at` (the `onupdate` column hook declared in
src/models.py fires on the commit issued by `_archive`), so it is not true
that only `status` and `archived_at` are written. -/
theorem archive_also_writes_updated_at :
    SessionManager.archive_session 5 1 1 w10Db = Except.ok (some (w10DbA, []))
    ∧ w10After.updated_at ≠ w10Before.updated_at :=
  ⟨rfl, by decide⟩

/-- C10, amended: a successful `archive_session` or `reactivate_session` call
writes only `status`, `archived_at` and `updated_at` (the latter via the ORM
`onupdate` hook): every session keeps its id, owner, title, creation time and
metadata, rows other than the addressed one are untouched, the Document table
and user table are untouched, and the secondary resource handle is never
invoked (the call log is empty — both operations pass no handle into the
transition, src/sessionManager.py lines 218 and 247). -/
theorem archive_reactivate_frame :
    ∀ (now : Int) (sid uid : Nat) (db db' : DBState) (calls : List (Nat × Nat × Bool)),
      (SessionManager.archive_session now sid uid db = Except.ok (some (db', calls)) ∨
       SessionManager.reactivate_session now sid uid db = Except.ok (some (db', calls))) →
      calls = []
      ∧ db'.users = db.users
      ∧ db'.documents = db.documents
      ∧ List.Forall₂ (fun t t' : Session =>
          t'.id = t.id ∧ t'.user_id = t.user_id ∧ t'.title = t.title
          ∧ t'.created_at = t.created_at ∧ t'.metadata_ = t.metadata_
          ∧ (t.id ≠ sid → t' = t)) db.sessions db'.sessions := by
  intro now sid uid db db' calls hop
  have main : ∀ (s0 : Session) (g : Session → Session),
      SessionManager.get_session sid uid db = some s0 →
      db' = SessionLifecycle.updateSession db s0.id g →
      (∀ t, (g t).id = t.id ∧ (g t).user_id = t.user_id ∧ (g t).title = t.title
        ∧ (g t).created_at = t.created_at ∧ (g t).metadata_ = t.metadata_) →
      List.Forall₂ (fun t t' : Session =>
          t'.id = t.id ∧ t'.user_id = t.user_id ∧ t'.title = t.title
          ∧ t'.created_at = t.created_at ∧ t'.metadata_ = t.metadata_
          ∧ (t.id ≠ sid → t' = t)) db.sessions db'.sessions := by
    intro s0 g hget hdb' hg
    have hid0 : s0.id = sid := by
      have hp := List.find?_some hget
      simp only [Bool.and_eq_true, beq_iff_eq] at hp
      exact hp.1
    subst hdb'
    rw [SessionLifecycle.updateSession]
    rw [List.forall₂_map_right_iff]
    rw [List.forall₂_same]
    intro t ht
    by_cases hidt : t.id = s0.id
    · rw [if_pos hidt]
      exact ⟨(hg t).1, (hg t).2.1, (hg t).2.2.1, (hg t).2.2.2.1, (hg t).2.2.2.2,
        fun hne => absurd (hidt.trans hid0) hne⟩
    · rw [if_neg hidt]
      exact ⟨rfl, rfl, rfl, rfl, rfl, fun _ => rfl⟩
  rcases hop with h | h
  · rw [SessionManager.archive_session] at h
    cases hget : SessionManager.get_session sid uid db with
    | none => rw [hget] at h; simp at h
    | some s0 =>
        rw [hget] at h
        simp only [SessionLifecycle.transition] at h
        split at h
        · simp only [Except.map, Except.ok.injEq, Option.some.injEq, Prod.mk.injEq] at h
          obtain ⟨hdb', hcalls⟩ := h
          refine ⟨hcalls.symm, ?_, ?_, ?_⟩
          · rw [← hdb']; rfl
          · rw [← hdb']; rfl
          · exact main s0 (SessionLifecycle.archiveFields now) hget hdb'.symm
              (fun t => ⟨rfl, rfl, rfl, rfl, rfl⟩)
        · simp [Except.map] at h
  · rw [SessionManager.reactivate_session] at h
    cases hget : SessionManager.get_session sid uid db with
    | none => rw [hget] at h; simp at h
    | some s0 =>
        rw [hget] at h
        simp only [SessionLifecycle.transition] at h
        split at h
        · simp only [Except.map, Except.ok.injEq, Option.some.injEq, Prod.mk.injEq] at h
          obtain ⟨hdb', hcalls⟩ := h
          refine ⟨hcalls.symm, ?_, ?_, ?_⟩
          · rw [← hdb']; rfl
          · rw [← hdb']; rfl
          · exact main s0 (SessionLifecycle.reactivateFields now) hget hdb'.symm
              (fun t => ⟨rfl, rfl, rfl, rfl, rfl⟩)
        · simp [Except.map] at h

/-- Witness for C10's amended theorem at the concrete archive of session 1. -/
theorem archive_reactivate_frame_witness :
    ([] : List (Nat × Nat × Bool)) = []
    ∧ w10DbA.users = w10Db.users
    ∧ w10DbA.documents = w10Db.documents
    ∧ List.Forall₂ (fun t t' : Session =>
        t'.id = t.id ∧ t'.user_id = t.user_id ∧ t'.title = t.title
        ∧ t'.created_at = t.created_at ∧ t'.metadata_ = t.metadata_
        ∧ (t.id ≠ 1 → t' = t)) w10Db.sessions w10DbA.sessions :=
  archive_reactivate_frame 5 1 1 w10Db w10DbA [] (Or.inl rfl)

/-- Witness for C5: the owner finds session 3; asking for an absent id 4, or
for id 3 as the non-owner user 2, both yield the same `none`. -/
theorem get_session_ownership_spec_witness :
    (∃ s, SessionManager.get_session 3 1 wDb5 = some s
       ∧ s ∈ wDb5.sessions ∧ s.id = 3 ∧ s.user_id = 1)
    ∧ SessionManager.get_session 4 1 wDb5 = none
    ∧ SessionManager.get_session 3 2 wDb5 = none :=
  ⟨(get_session_ownership_spec wDb5 3 1).1 ⟨wActive, by decide, by decide, by decide⟩,
   (get_session_ownership_spec wDb5 4 1).2.2.1 (by decide),
   (get_session_ownership_spec wDb5 3 2).2.2.2 (by decide)⟩

/-- The keeper selected by `pickKeeper` is one of the candidates. -/
theorem pickKeeper_mem : ∀ (l : List Session) (b : Session),
    SessionManager.pickKeeper b l ∈ b :: l := by
  intro l
  induction l with
  | nil => intro b; simp [SessionManager.pickKeeper]
  | cons s rest ih =>
      intro b
      rw [SessionManager.pickKeeper]
      have h := ih (if b.updated_at < s.updated_at then s else b)
      rcases List.mem_cons.mp h with hc | hr
      · rw [hc]
        by_cases hlt : b.updated_at < s.updated_at
        · rw [if_pos hlt]
          exact List.mem_cons_of_mem b (List.mem_cons_self s rest)
        · rw [if_neg hlt]
          exact List.mem_cons_self b (s :: rest)
      · exact List.mem_cons_of_mem b (List.mem_cons_of_mem s hr)

/-- The keeper selected by `pickKeeper` has the largest `updated_at` among the
candidates. -/
theorem pickKeeper_max : ∀ (l : List Session) (b x : Session),
    x ∈ b :: l → x.updated_at ≤ (SessionManager.pickKeeper b l).updated_at := by
  intro l
  induction l with
  | nil =>
      intro b x hx
      rw [SessionManager.pickKeeper]
      rcases List.mem_cons.mp hx with h | h
      · rw [h]
      · simp at h
  | cons s rest ih =>
      intro b x hx
      rw [SessionManager.pickKeeper]
      have hbc : b.updated_at ≤ (if b.updated_at < s.updated_at then s else b).updated_at := by
        by_cases hlt : b.updated_at < s.updated_at
        · rw [if_pos hlt]; exact le_of_lt hlt
        · rw [if_neg hlt]
      have hsc : s.updated_at ≤ (if b.updated_at < s.updated_at then s else b).updated_at := by
        by_cases hlt : b.updated_at < s.updated_at
        · rw [if_pos hlt]
        · rw [if_neg hlt]; exact le_of_not_lt hlt
      have hcmax := ih (if b.updated_at < s.updated_at then s else b)
      rcases List.mem_cons.mp hx with h | h
      · rw [h]
        exact le_trans hbc (hcmax _ (List.mem_cons_self _ _))
      · rcases List.mem_cons.mp h with h2 | h2
        · rw [h2]
          exact le_trans hsc (hcmax _ (List.mem_cons_self _ _))
        · exact hcmax x (List.mem_cons_of_mem _ h2)

/-- The reclamation rewrite never changes a session's id. -/
theorem reclaimMap_id (now : Int) (db : DBState) (msgCount : Nat → Nat)
    (uid kid : Nat) (s : Session) :
    (SessionManager.reclaimMap now db msgCount uid kid s).id = s.id := by
  rw [SessionManager.reclaimMap]
  split
  · rfl
  · split
    · rfl
    · rfl

/-- Unfolding membership in the empty-ACTIVE classification. -/
theorem mem_emptiesOf {uid : Nat} {msgCount : Nat → Nat} {db : DBState} {e : Session} :
    e ∈ SessionManager.emptiesOf uid msgCount db ↔
      e ∈ db.sessions ∧ SessionManager.isActiveOf uid e = true
        ∧ SessionManager.isEmptySession db msgCount e = true := by
  simp only [SessionManager.emptiesOf, SessionManager.activesOf, List.mem_filter, and_assoc]

/-- C2: when the user has at least one empty ACTIVE session (with primary-key
ids and distinct activity stamps), the reclamation policy keeps exactly the
most recently updated empty session, permanently deletes every other empty
ACTIVE session, archives every non-empty ACTIVE session, returns the keeper
(touched), and leaves the user with exactly one ACTIVE session — the keeper —
which is still empty. -/
theorem reclaim_policy_spec :
    ∀ (now : Int) (newId uid : Nat) (msgCount : Nat → Nat) (db : DBState),
      SessionManager.emptiesOf uid msgCount db ≠ [] →
      (db.sessions.map Session.id).Nodup →
      (SessionManager.emptiesOf uid msgCount db).Pairwise
        (fun a b => a.updated_at ≠ b.updated_at) →
      ∃ k0 ∈ SessionManager.emptiesOf uid msgCount db,
        (SessionManager.get_or_create_empty_session now newId uid msgCount db).2
            = { k0 with updated_at := now }
        ∧ (∀ e ∈ SessionManager.emptiesOf uid msgCount db, e.id ≠ k0.id →
            e.updated_at < k0.updated_at)
        ∧ (∀ e ∈ SessionManager.emptiesOf uid msgCount db, e.id ≠ k0.id →
            ∀ t ∈ (SessionManager.get_or_create_empty_session now newId uid msgCount db).1.sessions,
              t.id ≠ e.id)
        ∧ (∀ a ∈ SessionManager.activesOf uid db,
            SessionManager.isEmptySession db msgCount a = false →
            ∃ t ∈ (SessionManager.get_or_create_empty_session now newId uid msgCount db).1.sessions,
              t.id = a.id ∧ t.status = SessionState.ARCHIVED ∧ t.archived_at = some now)
        ∧ { k0 with updated_at := now }
            ∈ (SessionManager.get_or_create_empty_session now newId uid msgCount db).1.sessions
        ∧ (∀ t ∈ (SessionManager.get_or_create_empty_session now newId uid msgCount db).1.sessions,
            t.user_id = uid → t.status = SessionState.ACTIVE → t.id = k0.id)
        ∧ SessionManager.docCount
            (SessionManager.get_or_create_empty_session now newId uid msgCount db).1 k0.id = 0
        ∧ msgCount k0.id = 0 := by
  intro now newId uid msgCount db hne hnodup hpair
  obtain ⟨k1, rest, hE⟩ := List.exists_cons_of_ne_nil hne
  set kp := SessionManager.pickKeeper k1 rest with hkpdef
  have hres : SessionManager.get_or_create_empty_session now newId uid msgCount db
      = SessionManager.reclaimResult now uid msgCount db kp := by
    rw [SessionManager.get_or_create_empty_session.eq_def, hE]
  have hk0E : kp ∈ SessionManager.emptiesOf uid msgCount db := by
    rw [hE]; exact pickKeeper_mem rest k1
  have hk0max : ∀ x ∈ SessionManager.emptiesOf uid msgCount db,
      x.updated_at ≤ kp.updated_at := by
    rw [hE]; intro x hx; exact pickKeeper_max rest k1 x hx
  have hinj := List.inj_on_of_nodup_map hnodup
  obtain ⟨hkdb, hkact, hkempty⟩ := mem_emptiesOf.mp hk0E
  have hdelkp : SessionManager.reclaimDeleted db msgCount uid kp.id kp = false := by
    simp [SessionManager.reclaimDeleted]
  have hk0 : SessionManager.docCount db kp.id = 0 ∧ msgCount kp.id = 0 := by
    have h := hkempty
    simp only [SessionManager.isEmptySession, Bool.and_eq_true, beq_iff_eq] at h
    exact h
  refine ⟨kp, hk0E, ?_, ?_, ?_, ?_, ?_, ?_, ?_, ?_⟩
  · rw [hres]
    rfl
  · intro e he hid
    have hle := hk0max e he
    have hne2 : e ≠ kp := fun h => hid (congrArg Session.id h)
    have hsym : Symmetric (fun a b : Session => a.updated_at ≠ b.updated_at) :=
      fun a b h => Ne.symm h
    exact lt_of_le_of_ne hle (hpair.forall hsym he hk0E hne2)
  · intro e he hid t ht heq
    rw [hres] at ht
    simp only [SessionManager.reclaimResult, List.mem_map, List.mem_filter] at ht
    obtain ⟨s, ⟨hs, hkeepb⟩, hst⟩ := ht
    have hkeep : SessionManager.reclaimDeleted db msgCount uid kp.id s = false := by
      simpa using hkeepb
    have hsid : s.id = e.id := by
      rw [← heq, ← hst, reclaimMap_id]
    obtain ⟨hedb, heact, heempty⟩ := mem_emptiesOf.mp he
    have hse : s = e := hinj hs hedb hsid
    rw [hse] at hkeep
    simp [SessionManager.reclaimDeleted, heact, heempty, hid] at hkeep
  · intro a ha hnotempty
    obtain ⟨hadb, haact⟩ := List.mem_filter.mp ha
    have hdel : SessionManager.reclaimDeleted db msgCount uid kp.id a = false := by
      simp [SessionManager.reclaimDeleted, hnotempty]
    have hcond : (SessionManager.isActiveOf uid a
        && !(SessionManager.isEmptySession db msgCount a)) = true := by
      simp [haact, hnotempty]
    have hmapa : SessionManager.reclaimMap now db msgCount uid kp.id a
        = SessionLifecycle.archiveFields now a := by
      rw [SessionManager.reclaimMap, if_pos hcond]
    refine ⟨SessionLifecycle.archiveFields now a, ?_, rfl, rfl, rfl⟩
    rw [hres]
    simp only [SessionManager.reclaimResult]
    rw [← hmapa]
    exact List.mem_map_of_mem _ (List.mem_filter.mpr ⟨hadb, by simp [hdel]⟩)
  · have hmapkp : SessionManager.reclaimMap now db msgCount uid kp.id kp
        = { kp with updated_at := now } := by
      rw [SessionManager.reclaimMap]
      rw [if_neg (by simp [hkempty])]
      rw [if_pos (by simp)]
    rw [hres]
    simp only [SessionManager.reclaimResult]
    rw [← hmapkp]
    exact List.mem_map_of_mem _ (List.mem_filter.mpr ⟨hkdb, by simp [hdelkp]⟩)
  · intro t ht htuid htstatus
    rw [hres] at ht
    simp only [SessionManager.reclaimResult, List.mem_map, List.mem_filter] at ht
    obtain ⟨s, ⟨hs, hkeepb⟩, hst⟩ := ht
    have hkeep : SessionManager.reclaimDeleted db msgCount uid kp.id s = false := by
      simpa using hkeepb
    by_cases h1 : (SessionManager.isActiveOf uid s
        && !(SessionManager.isEmptySession db msgCount s)) = true
    · exfalso
      rw [SessionManager.reclaimMap, if_pos h1] at hst
      rw [← hst] at htstatus
      simp [SessionLifecycle.archiveFields] at htstatus
    · rw [SessionManager.reclaimMap, if_neg h1] at hst
      by_cases h2 : (s.id == kp.id) = true
      · rw [if_pos h2] at hst
        rw [← hst]
        exact eq_of_beq h2
      · rw [if_neg h2] at hst
        have hts : t = s := hst.symm
        rw [hts] at htuid htstatus
        have hact : SessionManager.isActiveOf uid s = true := by
          simp [SessionManager.isActiveOf, htuid, htstatus]
        cases hb : SessionManager.isEmptySession db msgCount s with
        | true =>
            rw [SessionManager.reclaimDeleted, hact, hb] at hkeep
            simp at hkeep
            rw [hts]
            exact hkeep
        | false =>
            exfalso
            exact h1 (by simp [hact, hb])
  · rw [hres]
    simp only [SessionManager.reclaimResult, SessionManager.docCount]
    rw [List.length_eq_zero, List.filter_eq_nil_iff]
    intro d hd
    have hdd := (List.mem_filter.mp hd).1
    have h0 : List.filter (fun d => d.session_id == kp.id) db.documents = [] := by
      have hq := hk0.1
      rw [SessionManager.docCount] at hq
      exact List.length_eq_zero.mp hq
    exact (List.filter_eq_nil_iff.mp h0) d hdd
  · exact hk0.2

/-- Conversation-memory oracle reporting no messages for any session. -/
def zeroMsg : Nat → Nat := fun _ => 0

/-- Empty ACTIVE session of user 1, stale (for the C2 witness). -/
def wE1 : Session :=
  { id := 1, user_id := 1, status := SessionState.ACTIVE, title := "e1",
    created_at := 0, updated_at := 10, archived_at := none, metadata_ := [] }

/-- Empty ACTIVE session of user 1, most recently updated: the keeper. -/
def wE2 : Session :=
  { id := 2, user_id := 1, status := SessionState.ACTIVE, title := "e2",
    created_at := 0, updated_at := 20, archived_at := none, metadata_ := [] }

/-- Non-empty ACTIVE session of user 1 (owns a document). -/
def wN3 : Session :=
  { id := 3, user_id := 1, status := SessionState.ACTIVE, title := "n3",
    created_at := 0, updated_at := 30, archived_at := none, metadata_ := [] }

/-- Store for the C2 witness: two empty ACTIVE sessions and one with a document. -/
def wC2Db : DBState :=
  { users := [1], sessions := [wE1, wE2, wN3],
    documents := [{ id := 20, session_id := 3, file_name := "d.pdf", file_size := 1,
                    file_type := "pdf", chunk_count := 1, storage_path := none }] }

/-- Witness for C2 on the concrete store: the reclamation at time 100 keeps
the most recent empty session, deletes the other empty one, archives the
non-empty one and leaves one empty ACTIVE session. -/
theorem reclaim_policy_spec_witness :
    ∃ k0 ∈ SessionManager.emptiesOf 1 zeroMsg wC2Db,
      (SessionManager.get_or_create_empty_session 100 9 1 zeroMsg wC2Db).2
          = { k0 with updated_at := 100 }
      ∧ (∀ e ∈ SessionManager.emptiesOf 1 zeroMsg wC2Db, e.id ≠ k0.id →
          e.updated_at < k0.updated_at)
      ∧ (∀ e ∈ SessionManager.emptiesOf 1 zeroMsg wC2Db, e.id ≠ k0.id →
          ∀ t ∈ (SessionManager.get_or_create_empty_session 100 9 1 zeroMsg wC2Db).1.sessions,
            t.id ≠ e.id)
      ∧ (∀ a ∈ SessionManager.activesOf 1 wC2Db,
          SessionManager.isEmptySession wC2Db zeroMsg a = false →
          ∃ t ∈ (SessionManager.get_or_create_empty_session 100 9 1 zeroMsg wC2Db).1.sessions,
            t.id = a.id ∧ t.status = SessionState.ARCHIVED ∧ t.archived_at = some 100)
      ∧ { k0 with updated_at := 100 }
          ∈ (SessionManager.get_or_create_empty_session 100 9 1 zeroMsg wC2Db).1.sessions
      ∧ (∀ t ∈ (SessionManager.get_or_create_empty_session 100 9 1 zeroMsg wC2Db).1.sessions,
          t.user_id = 1 → t.status = SessionState.ACTIVE → t.id = k0.id)
      ∧ SessionManager.docCount
          (SessionManager.get_or_create_empty_session 100 9 1 zeroMsg wC2Db).1 k0.id = 0
      ∧ zeroMsg k0.id = 0 :=
  reclaim_policy_spec 100 9 1 zeroMsg wC2Db (by decide) (by decide) (by decide)
